import Mathlib

/-!
Verification development for the global-hotkeys binding-matching engine
(src/global-hotkeys/global-hotkeys.py).  Python strings are modelled as
Lean `String`s with explicit helpers mirroring the Python string methods
used by the program; the event loop is modelled as an explicit step
function over a daemon state, with external effects (process execution,
bus calls, the event source, the config file) supplied by environments.
-/

namespace GlobalHotkeys

/-- Model of Python `str.split(sep)` on character lists, single-character
separator, no maxsplit.  `"".split(sep) = [""]` as in Python. -/
def pySplitChar (sep : Char) : List Char → List (List Char)
  | [] => [[]]
  | c :: cs =>
    let rest := pySplitChar sep cs
    if c = sep then [] :: rest
    else (c :: rest.headI) :: rest.tail

/-- Model of Python `str.split(sep)` for a single-character separator. -/
def pySplit (s : String) (sep : Char) : List String :=
  (pySplitChar sep s.data).map String.mk

/-- Model of Python `str.split(sep, 1)`: `some (before, after)` around the
first occurrence of `sep`, `none` when `sep` is absent (in which case the
two-name unpacking in the source raises `ValueError`). -/
def pySplitFirstChar (sep : Char) : List Char → Option (List Char × List Char)
  | [] => none
  | c :: cs =>
    if c = sep then some ([], cs)
    else
      match pySplitFirstChar sep cs with
      | some (a, b) => some (c :: a, b)
      | none => none

/-- Model of Python `str.upper` (ASCII is all the program ever feeds it). -/
def pyUpper (s : String) : String := String.mk (s.data.map Char.toUpper)

/-- Model of Python `str.strip()` with no argument (whitespace). -/
def pyStrip (s : String) : String :=
  String.mk (((s.data.dropWhile Char.isWhitespace).reverse.dropWhile Char.isWhitespace).reverse)

/-- Model of Python `str.startswith`. -/
def pyStartsWith (s p : String) : Bool := p.data.isPrefixOf s.data

/-- Model of Python `str.removeprefix`: drops `p` from the front of `s`
when it is a prefix, otherwise returns `s` unchanged. -/
def pyDropLead (s p : String) : String :=
  if p.data.isPrefixOf s.data then String.mk (s.data.drop p.data.length) else s

/-- Model of Python `str.removesuffix`: drops `p` from the end of `s`
when it is a suffix, otherwise returns `s` unchanged. -/
def pyDropTrail (s p : String) : String :=
  if p.data.isSuffixOf s.data then String.mk (s.data.take (s.data.length - p.data.length)) else s

/-- Model of Python `str.rstrip(c)` for a single character. -/
def pyRstrip (s : String) (c : Char) : String :=
  String.mk ((s.data.reverse.dropWhile (fun d => d = c)).reverse)

/-- libinput `KeyState` / `ButtonState`: both are value enums with
`RELEASED = 0`, `PRESSED = 1`, so the two collapse to one pressed/released
state in the model. -/
inductive InputState
  | released
  | pressed
deriving DecidableEq

/-- Python truthiness of the state value (`PRESSED = 1` is truthy). -/
def InputState.truthy : InputState → Bool
  | .pressed => true
  | .released => false

/-- The libinput event types the program distinguishes: the two members of
`VALID_EVENT_TYPES` plus everything else. -/
inductive LiEventType
  | keyboardKey
  | pointerButton
  | otherEvent
deriving DecidableEq

def VALID_EVENT_TYPES : List LiEventType := [.keyboardKey, .pointerButton]

/-- A keyboard/pointer input event: originating device identity, key or
button code (`get_event_keycode`), and press/release state
(`get_event_state`). -/
structure InputEvent where
  etype : LiEventType
  device : Nat
  code : Nat
  state : InputState
deriving DecidableEq

def get_event_state (ev : InputEvent) : InputState := ev.state

def get_event_keycode (ev : InputEvent) : Nat := ev.code

inductive ActionType
  | dbus
  | exec
deriving DecidableEq

def DEFAULT_ACTION_TYPE : ActionType := .dbus

/-- `ActionType[name]`: enum lookup by member name, `none` models the
`KeyError` branch. -/
def actionTypeFromName (s : String) : Option ActionType :=
  if s = "DBUS" then some .dbus else if s = "EXEC" then some .exec else none

/-- A compiled action.  `ActionParser.parse` always produces one of these
two shapes: the dbus and exec builders in the source cannot raise, so the
except branch that would yield a no-op action is dead code. -/
inductive Action
  | dbusCall (ns path method : String)
  | execCmd (cmd : String)
deriving DecidableEq

def ACTION_TYPE_SEP : Char := ':'

def DBUS_PATH_SEP : String := "/"

structure SimpleBinding where
  name : String
  keycodes : List Nat
  state : InputState
  action : Action
  device : Option Nat
deriving DecidableEq

/-- `SimpleBinding.matches`: device scope check first; combo bindings
(more than one keycode) require every listed code held; simple bindings
compare the event's code and state to the bound ones. -/
def SimpleBinding.matches (b : SimpleBinding) (event : InputEvent) (held_keys : List Nat) : Bool :=
  if b.device = none ∨ b.device = some event.device then
    if 1 < b.keycodes.length then
      decide (∀ kc ∈ b.keycodes, kc ∈ held_keys)
    else
      decide (get_event_keycode event = b.keycodes.headI ∧ get_event_state event = b.state)
  else
    false

namespace ActionParser

/-- `ActionParser.build_dbus_action`: namespace is the part before the
first slash, method the part after the last slash, and the path is the
string with the namespace and method peeled off, trailing slashes
stripped, defaulting to the path separator when empty. -/
def build_dbus_action (action_str : String) : Action :=
  let parts := pySplit action_str '/'
  let ns := parts.headI
  let method := parts.getLastD ""
  let path0 := pyRstrip (pyDropTrail (pyDropLead action_str ns) method) '/'
  let path := if path0 = "" then DBUS_PATH_SEP else path0
  Action.dbusCall ns path method

def build_exec_action (action_str : String) : Action := Action.execCmd action_str

/-- `ActionParser.parse`: the source unpacks `action_str.split(":")` into
exactly two names, so any count of colons other than one raises
`ValueError` and falls to the implicit default (whole string, dbus);
a single colon with an unrecognized type name raises `KeyError` and falls
to the default without stripping the prefix; a recognized type name has
the prefix stripped before the builder runs. -/
def parse (raw : String) : Action :=
  let s := pyStrip raw
  match pySplit s ACTION_TYPE_SEP with
  | [action_type_str, _] =>
    match actionTypeFromName (pyUpper action_type_str) with
    | some ActionType.dbus =>
        build_dbus_action (String.mk (s.data.drop (action_type_str.data.length + 1)))
    | some ActionType.exec =>
        build_exec_action (String.mk (s.data.drop (action_type_str.data.length + 1)))
    | none => build_dbus_action s
  | _ => build_dbus_action s

end ActionParser

/-- One `[bindings.<name>]` table of the config file. -/
structure BindingData where
  actions : List String
  keycodes : Option (List String)
  keycodeCombos : Option (List (List String))
  devices : Option (List Nat)
deriving DecidableEq

/-- A parsed config snapshot (only the part the binding compiler reads). -/
structure Config where
  bindings : List (String × BindingData)
deriving DecidableEq

def DEFAULT_KEYCODE_STATE : String := "PRESSED"

/-- `KeyState[name]` / `ButtonState[name]`: both enums have exactly the
members PRESSED and RELEASED, `none` models the `KeyError` branch. -/
def keyStateFromName (s : String) : Option InputState :=
  if s = "PRESSED" then some .pressed
  else if s = "RELEASED" then some .released
  else none

/-- Modelled from the spec: the OS key table consulted by
`keycode_from_name` (libevdev) resolves symbolic key names to numeric
codes; unresolvable names fail, scoped to that keycode (UnknownKeyError).
The table lists the standard evdev codes of the keys the development
uses. -/
def KEY_TABLE : List (String × Nat) :=
  [("KEY_LEFTCTRL", 29), ("KEY_T", 20), ("KEY_A", 30), ("KEY_B", 48),
   ("KEY_LEFTALT", 56), ("KEY_F20", 190)]

def keycode_from_name (key_name : String) : Except String Nat :=
  match KEY_TABLE.find? (fun p => p.1 = key_name) with
  | some p => .ok p.2
  | none => .error ("Unknown key name: " ++ key_name)

namespace ConfigManager

/-- `ConfigManager._parse_keycode`: optional inline `NAME:STATE` suffix
(split with maxsplit 1, state upper-cased, default PRESSED), then the
name prefix selects the state enum; names with neither prefix raise. -/
def parse_keycode (keycode_str : String) : Except String (String × InputState) :=
  let p :=
    match pySplitFirstChar ':' keycode_str.data with
    | some (a, b) => (String.mk a, pyUpper (String.mk b))
    | none => (keycode_str, DEFAULT_KEYCODE_STATE)
  let key_name := p.1
  if pyStartsWith key_name "KEY_" then
    match keyStateFromName p.2 with
    | some st => .ok (key_name, st)
    | none => .error ("KeyError: " ++ p.2)
  else if pyStartsWith key_name "BTN_" then
    match keyStateFromName p.2 with
    | some st => .ok (key_name, st)
    | none => .error ("KeyError: " ++ p.2)
  else
    .error ("Unknown type for keycode: " ++ keycode_str)

/-- The `keycodes` block of `generate_bindings`: for each keycode string,
resolve it, then yield one binding per action.  The generator has no
per-entry exception handling, so the first failure aborts the whole
computation. -/
def compile_keycodes (binding_name : String) (device : Option Nat) (actions : List Action) :
    List String → Except String (List SimpleBinding)
  | [] => .ok []
  | keycode_str :: rest =>
    match parse_keycode keycode_str with
    | .error m => .error m
    | .ok pr =>
      match keycode_from_name pr.1 with
      | .error m => .error m
      | .ok keycode =>
        match compile_keycodes binding_name device actions rest with
        | .error m => .error m
        | .ok more =>
          .ok (actions.map (fun a =>
            { name := binding_name, keycodes := [keycode], state := pr.2,
              action := a, device := device }) ++ more)

/-- Resolving one combo group: state suffixes on members are parsed but
ignored, only the resolved codes are kept. -/
def resolve_combo : List String → Except String (List Nat)
  | [] => .ok []
  | keycode_str :: rest =>
    match parse_keycode keycode_str with
    | .error m => .error m
    | .ok pr =>
      match keycode_from_name pr.1 with
      | .error m => .error m
      | .ok keycode =>
        match resolve_combo rest with
        | .error m => .error m
        | .ok more => .ok (keycode :: more)

/-- The `keycode-combos` block of `generate_bindings`: one binding per
(combo group, action), state fixed to the default PRESSED. -/
def compile_combos (binding_name : String) (device : Option Nat) (actions : List Action) :
    List (List String) → Except String (List SimpleBinding)
  | [] => .ok []
  | combo_set :: rest =>
    match resolve_combo combo_set with
    | .error m => .error m
    | .ok keycodes =>
      match compile_combos binding_name device actions rest with
      | .error m => .error m
      | .ok more =>
        .ok (actions.map (fun a =>
          { name := binding_name, keycodes := keycodes, state := InputState.pressed,
            action := a, device := device }) ++ more)

def compile_for_devices (binding_name : String) (bd : BindingData) (actions : List Action) :
    List (Option Nat) → Except String (List SimpleBinding)
  | [] => .ok []
  | device :: rest =>
    match (match bd.keycodes with
           | some l => compile_keycodes binding_name device actions l
           | none => Except.ok []) with
    | .error m => .error m
    | .ok simple =>
      match (match bd.keycodeCombos with
             | some l => compile_combos binding_name device actions l
             | none => Except.ok []) with
      | .error m => .error m
      | .ok combos =>
        match compile_for_devices binding_name bd actions rest with
        | .error m => .error m
        | .ok more => .ok (simple ++ combos ++ more)

/-- One `[bindings.<name>]` entry of `generate_bindings`: actions parsed
first (the action parser is total), devices default to a single unscoped
entry, then the keycodes and combo blocks expand per device. -/
def compile_entry (binding_name : String) (bd : BindingData) : Except String (List SimpleBinding) :=
  let actions := bd.actions.map ActionParser.parse
  let devices : List (Option Nat) :=
    match bd.devices with
    | some ds => ds.map some
    | none => [none]
  compile_for_devices binding_name bd actions devices

def compile_entries : List (String × BindingData) → Except String (List SimpleBinding)
  | [] => .ok []
  | e :: rest =>
    match compile_entry e.1 e.2 with
    | .error m => .error m
    | .ok bs =>
      match compile_entries rest with
      | .error m => .error m
      | .ok more => .ok (bs ++ more)

/-- `ConfigManager.generate_bindings`, as consumed by
`list(state.config.generate_bindings())`: an exception anywhere in the
generator aborts the whole list construction, so the result is a single
`Except`. -/
def generate_bindings (cfg : Config) : Except String (List SimpleBinding) :=
  compile_entries cfg.bindings

/-- The mutable part of a `ConfigManager`: current parsed config and the
recorded file modification time (initially -1). -/
structure CMState where
  config : Config
  configMtime : Int
deriving DecidableEq

instance exceptDecEq {ε α : Type} [DecidableEq ε] [DecidableEq α] :
    DecidableEq (Except ε α) := fun a b =>
  match a, b with
  | .error e, .error e' =>
    if h : e = e' then isTrue (by rw [h]) else isFalse (fun hc => h (by injection hc))
  | .error _, .ok _ => isFalse (fun hc => Except.noConfusion hc)
  | .ok _, .error _ => isFalse (fun hc => Except.noConfusion hc)
  | .ok x, .ok y =>
    if h : x = y then isTrue (by rw [h]) else isFalse (fun hc => h (by injection hc))

/-- What the config file looks like at one observation: its modification
time and what parsing it would yield (an error models `tomllib` raising,
or the file being unreadable). -/
structure FileState where
  mtime : Int
  parsed : Except String Config
deriving DecidableEq

/-- `ConfigManager.load`: the recorded mtime is assigned from the file
BEFORE parsing, so it advances even when parsing then raises; the config
mapping is replaced only on parse success.  The boolean is true when the
load completed without raising. -/
def load (st : CMState) (f : FileState) : CMState × Bool :=
  match f.parsed with
  | .ok cfg => ({ config := cfg, configMtime := f.mtime }, true)
  | .error _ => ({ config := st.config, configMtime := f.mtime }, false)

/-- `ConfigManager.need_reload`: current file mtime strictly above the
recorded one. -/
def need_reload (st : CMState) (f : FileState) : Bool :=
  decide (f.mtime > st.configMtime)

end ConfigManager

/-- Python dict assignment on an insertion-ordered association list:
overwrite in place when the key exists, append otherwise. -/
def dict_set : List (Nat × Bool) → Nat → Bool → List (Nat × Bool)
  | [], k, v => [(k, v)]
  | (k0, v0) :: rest, k, v =>
    if k0 = k then (k, v) :: rest else (k0, v0) :: dict_set rest k v

/-- Outcome of `subprocess.call` on a command (timeout handling included
in the call boundary). -/
inductive ExecOutcome
  | exited (code : Int)
  | timedOut
  | osError
deriving DecidableEq

/-- Outcome of the two fallible steps of a dbus invocation. -/
inductive DbusOutcome
  | ok
  | getObjectFailed
  | callFailed
deriving DecidableEq

/-- The external world an action invocation runs against, plus the
dry-run option from the CLI layer. -/
structure ActionEnv where
  dryRun : Bool
  execResult : String → ExecOutcome
  dbusResult : String → String → String → DbusOutcome

/-- Observable outcome of invoking one action: warnings logged and remote
method invocations attempted. -/
structure InvokeResult where
  warnings : List String
  calls : List (String × String × String)
deriving DecidableEq

/-- The closures built by `build_dbus_action` / `build_exec_action`:
every failure branch is caught inside the closure and logged as a
warning, so invocation is total. -/
def invoke_action (env : ActionEnv) : Action → InvokeResult
  | .dbusCall ns path method =>
    match env.dbusResult ns path method with
    | .ok => { warnings := [], calls := [(ns, path, method)] }
    | .callFailed =>
        { warnings := ["Error calling " ++ ns ++ DBUS_PATH_SEP ++ method],
          calls := [(ns, path, method)] }
    | .getObjectFailed =>
        { warnings := ["Error getting object " ++ ns ++ DBUS_PATH_SEP ++ method], calls := [] }
  | .execCmd cmd =>
    match env.execResult cmd with
    | .exited r =>
        if r = 0 then { warnings := [], calls := [] }
        else { warnings := ["Non-zero return code from executing: " ++ cmd], calls := [] }
    | .timedOut => { warnings := ["Timeout executing: " ++ cmd], calls := [] }
    | .osError => { warnings := ["Error executing: " ++ cmd], calls := [] }

/-- `BindingTriggeredEvent.run`: dry run logs and skips, otherwise the
action is invoked. -/
def run_triggered (env : ActionEnv) (a : Action) : InvokeResult :=
  if env.dryRun then { warnings := ["Dry run enabled, not running action"], calls := [] }
  else invoke_action env a

namespace EventManager

/-- `EventManager._mark_held`: unconditionally writes the event's truthy
state under the event's keycode. -/
def mark_held (held : List (Nat × Bool)) (ev : InputEvent) : List (Nat × Bool) :=
  if (get_event_state ev).truthy then dict_set held (get_event_keycode ev) true
  else dict_set held (get_event_keycode ev) false

/-- `EventManager.held_keys`: the set of codes currently flagged held. -/
def held_keys (held : List (Nat × Bool)) : List Nat :=
  (held.filter (fun p => p.2)).map (fun p => p.1)

/-- Result of one `run_once`: updated held dict, actions actually run,
warnings logged, and remote calls attempted. -/
structure RunOnceResult where
  held : List (Nat × Bool)
  dispatched : List Action
  warnings : List String
  calls : List (String × String × String)
deriving DecidableEq

/-- `EventManager.run_once`: events of an invalid type are discarded;
otherwise held state is updated first, then every binding is evaluated
against the event and the fresh held set, and each match is dispatched in
order. -/
def run_once (env : ActionEnv) (held : List (Nat × Bool)) (bindings : List SimpleBinding)
    (ev : InputEvent) : RunOnceResult :=
  if VALID_EVENT_TYPES.contains ev.etype then
    let held2 := mark_held held ev
    let hk := held_keys held2
    let matched := bindings.filter (fun b => b.matches ev hk)
    { held := held2,
      dispatched := if env.dryRun then [] else matched.map (fun b => b.action),
      warnings := (matched.map (fun b => (run_triggered env b.action).warnings)).flatten,
      calls := (matched.map (fun b => (run_triggered env b.action).calls)).flatten }
  else
    { held := held, dispatched := [], warnings := [], calls := [] }

/-- What one iteration of `run_forever` consumes: the next event, or the
event source raising, or a keyboard interrupt delivered. -/
inductive LoopEvent
  | input (ev : InputEvent)
  | sourceFailure (msg : String)
  | interrupt
deriving DecidableEq

/-- How `run_forever` can end: `interrupted` is the graceful break on
KeyboardInterrupt; the other two are exceptions propagating out of the
loop (the surrounding try catches only KeyboardInterrupt). -/
inductive LoopExit
  | interrupted
  | eventSourceFailure (msg : String)
  | crashed (msg : String)
deriving DecidableEq

/-- The state threaded through `run_forever`: the held dict, the
`ConfigManager` and the active binding list. -/
structure DaemonState where
  held : List (Nat × Bool)
  cm : ConfigManager.CMState
  bindings : List SimpleBinding
deriving DecidableEq

/-- One iteration of the `while True` body of `run_forever`: run_once,
then the reload check.  A failed `load` is caught and logged, keeping the
previous config and bindings; after a successful `load` the bindings are
regenerated, and an exception from the generator propagates (only
KeyboardInterrupt is caught), crashing the loop. -/
def loop_iter (env : ActionEnv) (f : ConfigManager.FileState) (st : DaemonState) :
    LoopEvent → Except LoopExit (DaemonState × RunOnceResult)
  | .interrupt => .error .interrupted
  | .sourceFailure m => .error (.eventSourceFailure m)
  | .input ev =>
    let r := run_once env st.held st.bindings ev
    if ConfigManager.need_reload st.cm f then
      let ld := ConfigManager.load st.cm f
      if ld.2 then
        match ConfigManager.generate_bindings ld.1.config with
        | .ok bs => .ok ({ held := r.held, cm := ld.1, bindings := bs }, r)
        | .error m => .error (.crashed m)
      else
        .ok ({ held := r.held, cm := ld.1, bindings := st.bindings },
             { held := r.held, dispatched := r.dispatched,
               warnings := r.warnings ++ ["Error reloading config"],
               calls := r.calls })
    else
      .ok ({ held := r.held, cm := st.cm, bindings := st.bindings }, r)

/-- `run_forever` over a finite schedule of loop inputs, each paired with
the config file state observed during that iteration; collects the
per-iteration results until the loop ends or the schedule is exhausted. -/
def run_loop (env : ActionEnv) :
    DaemonState → List (LoopEvent × ConfigManager.FileState) →
      Except LoopExit (DaemonState × List RunOnceResult)
  | st, [] => .ok (st, [])
  | st, (lev, f) :: rest =>
    match loop_iter env f st lev with
    | .ok (st2, r) =>
      match run_loop env st2 rest with
      | .ok (stF, rs) => .ok (stF, r :: rs)
      | .error e => .error e
    | .error e => .error e

/-- A sequence of `run_once` calls with a fixed binding list (the loop
when the config file never changes). -/
def run_events (env : ActionEnv) :
    List (Nat × Bool) → List SimpleBinding → List InputEvent →
      List (Nat × Bool) × List RunOnceResult
  | held, _, [] => (held, [])
  | held, bindings, ev :: evs =>
    let r := run_once env held bindings ev
    let rest := run_events env r.held bindings evs
    (rest.1, r :: rest.2)

end EventManager

/-! ### Concrete fixtures used by the theorems -/

/-- A benign external world: every command exits 0, every bus call succeeds. -/
def env0 : ActionEnv :=
  { dryRun := false, execResult := fun _ => ExecOutcome.exited 0,
    dbusResult := fun _ _ _ => DbusOutcome.ok }

/-- An external world where /bin/false exits 1 and everything else succeeds. -/
def envFalse : ActionEnv :=
  { dryRun := false,
    execResult := fun c => if c = "/bin/false" then ExecOutcome.exited 1 else ExecOutcome.exited 0,
    dbusResult := fun _ _ _ => DbusOutcome.ok }

/-- A key-press event on keyboard device 0. -/
def pressEv (c : Nat) : InputEvent :=
  { etype := .keyboardKey, device := 0, code := c, state := .pressed }

/-- A key-release event on keyboard device 0. -/
def relEv (c : Nat) : InputEvent :=
  { etype := .keyboardKey, device := 0, code := c, state := .released }

/-- An event of a type outside VALID_EVENT_TYPES. -/
def otherEv : InputEvent :=
  { etype := .otherEvent, device := 0, code := 0, state := .pressed }

def comboAction : Action := Action.execCmd "combo-cmd"

/-- The CTRL+ALT+T combo binding (evdev codes 29, 56, 20). -/
def comboBinding : SimpleBinding :=
  { name := "combo", keycodes := [29, 56, 20], state := .pressed,
    action := comboAction, device := none }

/-- Press CTRL, press ALT, press T, then press the unrelated KEY_A. -/
def c3Events : List InputEvent := [pressEv 29, pressEv 56, pressEv 20, pressEv 30]

def c1b : SimpleBinding :=
  { name := "w", keycodes := [30], state := .pressed, action := Action.execCmd "x", device := none }

/-- A combo binding scoped to device 1. -/
def c2b : SimpleBinding :=
  { name := "combo-scoped", keycodes := [29, 56], state := .pressed,
    action := Action.execCmd "x", device := some 1 }

/-- An event arriving from device 2. -/
def c2e : InputEvent := { etype := .keyboardKey, device := 2, code := 29, state := .pressed }

/-- The unscoped variant of the combo binding. -/
def c2ub : SimpleBinding := { c2b with device := none }

def bdBad : BindingData :=
  { actions := ["exec:x"], keycodes := some ["FOO_X"], keycodeCombos := none, devices := none }

def bdGood : BindingData :=
  { actions := ["exec:y"], keycodes := some ["KEY_A"], keycodeCombos := none, devices := none }

/-- A config with a malformed first entry and a valid second one. -/
def cfgC4 : Config := { bindings := [("bad", bdBad), ("good", bdGood)] }

def cfgGood : Config := { bindings := [("good", bdGood)] }

def goodBinding : SimpleBinding :=
  { name := "good", keycodes := [30], state := .pressed,
    action := Action.execCmd "y", device := none }

def cfgEmpty : Config := { bindings := [] }

def st0 : EventManager.DaemonState :=
  { held := [], cm := { config := cfgEmpty, configMtime := 0 }, bindings := [] }

/-- The config file touched (mtime 5) but unparseable. -/
def fBadParse : ConfigManager.FileState := { mtime := 5, parsed := .error "toml parse error" }

/-- The config file touched (mtime 5), parsing fine, but with a malformed binding. -/
def fC6 : ConfigManager.FileState := { mtime := 5, parsed := .ok cfgC4 }

def stPrev : EventManager.DaemonState :=
  { held := [], cm := { config := cfgEmpty, configMtime := 0 }, bindings := [comboBinding] }

def c5st2 : EventManager.DaemonState :=
  { held := [(30, true)], cm := { config := cfgEmpty, configMtime := 5 },
    bindings := [comboBinding] }

def c5r : EventManager.RunOnceResult :=
  { held := [(30, true)], dispatched := [], warnings := ["Error reloading config"], calls := [] }

def falseBinding : SimpleBinding :=
  { name := "false", keycodes := [190], state := .pressed,
    action := Action.execCmd "/bin/false", device := none }

def stFalse : EventManager.DaemonState :=
  { held := [], cm := { config := cfgEmpty, configMtime := 0 }, bindings := [falseBinding] }

def fEmpty0 : ConfigManager.FileState := { mtime := 0, parsed := .ok cfgEmpty }

def stFalseAfter : EventManager.DaemonState :=
  { held := [(190, true)], cm := { config := cfgEmpty, configMtime := 0 },
    bindings := [falseBinding] }

def rFalseAfter : EventManager.RunOnceResult :=
  { held := [(190, true)], dispatched := [Action.execCmd "/bin/false"],
    warnings := ["Non-zero return code from executing: /bin/false"], calls := [] }

def cfgMute : Config :=
  { bindings := [("mute",
      { actions := ["dbus:org.example.Audio/mute"], keycodes := some ["KEY_F20"],
        keycodeCombos := none, devices := none })] }

def muteBinding : SimpleBinding :=
  { name := "mute", keycodes := [190], state := .pressed,
    action := Action.dbusCall "org.example.Audio" "/" "mute", device := none }

def cfgCombo : Config :=
  { bindings := [("comboAB",
      { actions := ["exec:combo-cmd"], keycodes := none,
        keycodeCombos := some [["KEY_A", "KEY_B"]], devices := none })] }

def fCombo1 : ConfigManager.FileState := { mtime := 1, parsed := .ok cfgCombo }

def comboABBinding : SimpleBinding :=
  { name := "comboAB", keycodes := [30, 48], state := .pressed,
    action := comboAction, device := none }

def c9Final : EventManager.DaemonState :=
  { held := [(30, true), (48, true)], cm := { config := cfgCombo, configMtime := 1 },
    bindings := [comboABBinding] }

def c9Records : List EventManager.RunOnceResult :=
  [ { held := [(30, true)], dispatched := [], warnings := [], calls := [] },
    { held := [(30, true)], dispatched := [], warnings := [], calls := [] },
    { held := [(30, true), (48, true)], dispatched := [comboAction], warnings := [], calls := [] } ]

def c10st : ConfigManager.CMState := { config := cfgEmpty, configMtime := 0 }

def c10st2 : ConfigManager.CMState := { config := cfgEmpty, configMtime := 5 }

/-! ### Theorems -/

/-- C1: for a simple binding (exactly one keycode), `matches` holds exactly
when the event's code equals the bound code, the event's state equals the
required state, and the binding is unscoped or scoped to the event's
device. -/
theorem c1_simple_binding_matches_iff (b : SimpleBinding) (event : InputEvent)
    (held_keys : List Nat) (h : b.keycodes.length = 1) :
    b.matches event held_keys = true ↔
      (get_event_keycode event = b.keycodes.headI ∧ get_event_state event = b.state ∧
        (b.device = none ∨ b.device = some event.device)) := by
  have h2 : ¬ 1 < b.keycodes.length := by omega
  unfold SimpleBinding.matches
  by_cases hd : b.device = none ∨ b.device = some event.device
  · rw [if_pos hd, if_neg h2]
    simp only [decide_eq_true_eq]
    exact ⟨fun hc => ⟨hc.1, hc.2, hd⟩, fun hc => ⟨hc.1, hc.2.1⟩⟩
  · rw [if_neg hd]
    simp only [Bool.false_eq_true, false_iff]
    intro hc
    exact hd hc.2.2

/-- C1 witness: a concrete simple binding matching a concrete event. -/
theorem c1_witness : c1b.keycodes.length = 1 ∧ c1b.matches (pressEv 30) [] = true :=
  ⟨by decide, (c1_simple_binding_matches_iff c1b (pressEv 30) [] (by decide)).mpr
    ⟨by decide, by decide, Or.inl (by decide)⟩⟩

/-- C2 counterexample: a device-scoped combo binding whose full code set is
held still fails to match an event arriving from a different device, so
`matches` is not equivalent to the subset test alone. -/
theorem c2_counterexample :
    c2b.keycodes = [29, 56] ∧ c2b.matches c2e [29, 56] = false := by decide

/-- C2 amended: for a combo binding, `matches` holds exactly when the device
scope admits the event and every combo code is in the held set; the
event's own code and state still play no role. -/
theorem c2_amended_combo_matches_iff (b : SimpleBinding) (event : InputEvent)
    (held_keys : List Nat) (h : 1 < b.keycodes.length) :
    b.matches event held_keys = true ↔
      ((b.device = none ∨ b.device = some event.device) ∧
        ∀ kc ∈ b.keycodes, kc ∈ held_keys) := by
  unfold SimpleBinding.matches
  by_cases hd : b.device = none ∨ b.device = some event.device
  · rw [if_pos hd, if_pos h]
    simp only [decide_eq_true_eq]
    exact ⟨fun hs => ⟨hd, hs⟩, fun hs => hs.2⟩
  · rw [if_neg hd]
    simp only [Bool.false_eq_true, false_iff]
    intro hc
    exact hd hc.1

/-- C2 amended witness: an unscoped combo with both codes held matches. -/
theorem c2_amended_witness : 1 < c2ub.keycodes.length ∧ c2ub.matches c2e [29, 56] = true :=
  ⟨by decide, (c2_amended_combo_matches_iff c2ub c2e [29, 56] (by decide)).mpr
    ⟨Or.inl (by decide), by decide⟩⟩

/-- C3 counterexample: with the CTRL, ALT, T combo, the dispatch pattern the
claim requires (once on the T press, nothing on the later unrelated press
while all three stay held) is not what the code produces. -/
theorem c3_counterexample :
    ¬ ((EventManager.run_events env0 [] [comboBinding] c3Events).2.map
        EventManager.RunOnceResult.dispatched = [[], [], [comboAction], []]) := by decide

/-- C3 amended: the combo dispatches exactly once on the T press during the
three presses, and then dispatches again on the later press of the
unrelated KEY_A while all three keys remain held. -/
theorem c3_amended_combo_retriggers :
    (EventManager.run_events env0 [] [comboBinding] c3Events).2.map
        EventManager.RunOnceResult.dispatched =
      [[], [], [comboAction], [comboAction]] := by decide

/-- A failing entry anywhere in the entry list makes the whole sequential
compilation fail: the generator body has no per-entry exception handler,
and consuming it with list() loses everything already yielded. -/
theorem compile_entries_error_of_mem (e : String × BindingData)
    (hfail : (ConfigManager.compile_entry e.1 e.2).isOk = false) :
    ∀ l : List (String × BindingData), e ∈ l →
      (ConfigManager.compile_entries l).isOk = false
  | [], hmem => absurd hmem (List.not_mem_nil e)
  | a :: rest, hmem => by
    unfold ConfigManager.compile_entries
    rcases List.mem_cons.mp hmem with heq | hmem2
    · rw [← heq]
      cases hcc : ConfigManager.compile_entry e.1 e.2 with
      | error m => simp only [hcc]; rfl
      | ok bs =>
        rw [hcc] at hfail
        simp [Except.isOk, Except.toBool] at hfail
    · have hrec := compile_entries_error_of_mem e hfail rest hmem2
      cases hcc : ConfigManager.compile_entry a.1 a.2 with
      | error m => simp only [hcc]; rfl
      | ok bs =>
        simp only [hcc]
        cases hr : ConfigManager.compile_entries rest with
        | error m => simp only [hr]; rfl
        | ok more =>
          rw [hr] at hrec
          simp [Except.isOk, Except.toBool] at hrec

/-- C4 amended: a single malformed binding entry makes the whole compile
fail — generate_bindings raises, so no binding list at all is produced and
no other declared entry reaches the result. -/
theorem c4_amended_malformed_entry_aborts_compile (cfg : Config)
    (e : String × BindingData) (hmem : e ∈ cfg.bindings)
    (hfail : (ConfigManager.compile_entry e.1 e.2).isOk = false) :
    (ConfigManager.generate_bindings cfg).isOk = false :=
  compile_entries_error_of_mem e hfail cfg.bindings hmem

/-- C4 counterexample: one malformed entry (key name FOO_X, neither KEY_ nor
BTN_ prefixed) makes the whole compile return an error, while the other
declared entry alone compiles fine — so that entry is not compiled into
any resulting binding list. -/
theorem c4_counterexample :
    ConfigManager.generate_bindings cfgC4 = Except.error "Unknown type for keycode: FOO_X" ∧
    ConfigManager.generate_bindings cfgGood = Except.ok [goodBinding] := by decide

/-- C4 amended witness: the malformed entry of cfgC4 aborts its compile. -/
theorem c4_amended_witness :
    ("bad", bdBad) ∈ cfgC4.bindings ∧
    (ConfigManager.compile_entry "bad" bdBad).isOk = false ∧
    (ConfigManager.generate_bindings cfgC4).isOk = false :=
  ⟨by decide, by decide,
    c4_amended_malformed_entry_aborts_compile cfgC4 ("bad", bdBad) (by decide) (by decide)⟩

/-- C5: when the reload check fires and the re-parse fails, the iteration
still completes normally with the previous binding list and config intact,
and the binding list changes only when the file parsed successfully and
regeneration from the new config produced exactly the new list. -/
theorem c5_failed_reload_keeps_previous_bindings (env : ActionEnv)
    (f : ConfigManager.FileState) (st : EventManager.DaemonState) (ev : InputEvent)
    (st2 : EventManager.DaemonState) (r : EventManager.RunOnceResult)
    (hstep : EventManager.loop_iter env f st (EventManager.LoopEvent.input ev) =
      Except.ok (st2, r)) :
    ((∃ m, f.parsed = Except.error m) →
        st2.bindings = st.bindings ∧ st2.cm.config = st.cm.config) ∧
    (st2.bindings ≠ st.bindings →
        ∃ cfg, f.parsed = Except.ok cfg ∧
          ConfigManager.generate_bindings cfg = Except.ok st2.bindings) := by
  simp only [EventManager.loop_iter] at hstep
  split at hstep
  · split at hstep
    · rename_i hld2
      split at hstep
      · rename_i bs hg
        simp only [Except.ok.injEq, Prod.mk.injEq] at hstep
        obtain ⟨h1, h2⟩ := hstep
        subst h1
        constructor
        · rintro ⟨m, hm⟩
          simp [ConfigManager.load, hm] at hld2
        · intro hne
          cases hp : f.parsed with
          | error m => simp [ConfigManager.load, hp] at hld2
          | ok cfg =>
            refine ⟨cfg, rfl, ?_⟩
            have hc : (ConfigManager.load st.cm f).1.config = cfg := by
              simp [ConfigManager.load, hp]
            rw [hc] at hg
            exact hg
      · exact Except.noConfusion hstep
    · rename_i hld2
      simp only [Except.ok.injEq, Prod.mk.injEq] at hstep
      obtain ⟨h1, h2⟩ := hstep
      subst h1
      constructor
      · intro _
        refine ⟨rfl, ?_⟩
        cases hp : f.parsed with
        | error m => simp [ConfigManager.load, hp]
        | ok cfg => exact absurd (by simp [ConfigManager.load, hp]) hld2
      · intro hne
        exact absurd rfl hne
  · simp only [Except.ok.injEq, Prod.mk.injEq] at hstep
    obtain ⟨h1, h2⟩ := hstep
    subst h1
    exact ⟨fun _ => ⟨rfl, rfl⟩, fun hne => absurd rfl hne⟩

/-- C5 witness: a concrete failed reload keeps the previous binding. -/
theorem c5_witness :
    EventManager.loop_iter env0 fBadParse stPrev (EventManager.LoopEvent.input (pressEv 30)) =
      Except.ok (c5st2, c5r) ∧
    c5st2.bindings = stPrev.bindings :=
  ⟨by decide,
    ((c5_failed_reload_keeps_previous_bindings env0 fBadParse stPrev (pressEv 30) c5st2 c5r
      (by decide)).1 ⟨"toml parse error", by decide⟩).1⟩

/-- C6 counterexample: an event that triggers a reload whose parse succeeds
but whose binding regeneration fails terminates the loop with a crash — a
termination that is neither an event-source failure nor an interrupt,
contradicting the claim that every other failure is caught and logged. -/
theorem c6_counterexample :
    EventManager.loop_iter env0 fC6 st0 (EventManager.LoopEvent.input (pressEv 30)) =
      Except.error (EventManager.LoopExit.crashed "Unknown type for keycode: FOO_X") := by
  decide

/-- C6 amended: the loop exits only through an external interrupt, an
event-source failure, or a binding-regeneration error after a reload whose
parse succeeded; processing an input event never otherwise errors, and
dispatching exec:/bin/false merely logs the non-zero-exit warning while
the iteration completes normally. -/
theorem c6_amended_loop_exit_causes :
    (∀ (env : ActionEnv) (f : ConfigManager.FileState) (st : EventManager.DaemonState)
        (ev : InputEvent) (e : EventManager.LoopExit),
        EventManager.loop_iter env f st (EventManager.LoopEvent.input ev) = Except.error e →
          ConfigManager.need_reload st.cm f = true ∧
          ∃ cfg m, f.parsed = Except.ok cfg ∧
            ConfigManager.generate_bindings cfg = Except.error m ∧
            e = EventManager.LoopExit.crashed m) ∧
    (∀ (env : ActionEnv) (f : ConfigManager.FileState) (st : EventManager.DaemonState)
        (m : String),
        EventManager.loop_iter env f st (EventManager.LoopEvent.sourceFailure m) =
          Except.error (EventManager.LoopExit.eventSourceFailure m)) ∧
    (∀ (env : ActionEnv) (f : ConfigManager.FileState) (st : EventManager.DaemonState),
        EventManager.loop_iter env f st EventManager.LoopEvent.interrupt =
          Except.error EventManager.LoopExit.interrupted) ∧
    (EventManager.loop_iter envFalse fEmpty0 stFalse
        (EventManager.LoopEvent.input (pressEv 190)) =
      Except.ok (stFalseAfter, rFalseAfter)) ∧
    rFalseAfter.warnings = ["Non-zero return code from executing: /bin/false"] := by
  refine ⟨?_, fun _ _ _ _ => rfl, fun _ _ _ => rfl, by decide, by decide⟩
  intro env f st ev e hstep
  simp only [EventManager.loop_iter] at hstep
  split at hstep
  · rename_i hneed
    split at hstep
    · rename_i hld2
      split at hstep
      · exact Except.noConfusion hstep
      · rename_i m hg
        refine ⟨hneed, ?_⟩
        cases hp : f.parsed with
        | error m2 => simp [ConfigManager.load, hp] at hld2
        | ok cfg =>
          have hgc : ConfigManager.generate_bindings cfg = Except.error m := by
            have hc : (ConfigManager.load st.cm f).1.config = cfg := by
              simp [ConfigManager.load, hp]
            rw [hc] at hg
            exact hg
          have he : e = EventManager.LoopExit.crashed m := by
            injection hstep with h
            exact h.symm
          exact ⟨cfg, m, rfl, hgc, he⟩
    · exact Except.noConfusion hstep
  · exact Except.noConfusion hstep

/-- C6 amended witness: the crashing reload instantiates the exit-cause
characterization for input events. -/
theorem c6_amended_witness :
    EventManager.loop_iter env0 fC6 st0 (EventManager.LoopEvent.input (pressEv 30)) =
      Except.error (EventManager.LoopExit.crashed "Unknown type for keycode: FOO_X") ∧
    ConfigManager.need_reload st0.cm fC6 = true :=
  ⟨by decide,
    (c6_amended_loop_exit_causes.1 env0 fC6 st0 (pressEv 30)
      (EventManager.LoopExit.crashed "Unknown type for keycode: FOO_X") (by decide)).1⟩

/-- Splitting never yields an empty part list. -/
theorem pySplitChar_ne_nil (sep : Char) (l : List Char) : pySplitChar sep l ≠ [] := by
  cases l with
  | nil => simp [pySplitChar]
  | cons c cs =>
    unfold pySplitChar
    by_cases h : c = sep <;> simp [h]

/-- The first part of a split is the text before the first separator. -/
theorem pySplitChar_headI (sep : Char) (l : List Char) :
    (pySplitChar sep l).headI = l.takeWhile (fun c => c ≠ sep) := by
  induction l with
  | nil => rfl
  | cons c cs ih =>
    unfold pySplitChar
    by_cases h : c = sep
    · simp [h]
    · simp [h, ih]

/-- How appending one character extends a split. -/
theorem pySplitChar_append_last (sep c : Char) :
    ∀ xs : List Char,
      pySplitChar sep (xs ++ [c]) =
        if c = sep then pySplitChar sep xs ++ [[]]
        else (pySplitChar sep xs).dropLast ++ [(pySplitChar sep xs).getLastD [] ++ [c]]
  | [] => by
    by_cases h : c = sep <;> simp [pySplitChar, h]
  | x :: xs => by
    have ih := pySplitChar_append_last sep c xs
    obtain ⟨s0, S, hS⟩ := List.exists_cons_of_ne_nil (pySplitChar_ne_nil sep xs)
    by_cases hc : c = sep
    · rw [if_pos hc] at ih ⊢
      show pySplitChar sep (x :: (xs ++ [c])) = pySplitChar sep (x :: xs) ++ [[]]
      unfold pySplitChar
      rw [ih, hS]
      by_cases hx : x = sep
      · simp [hx]
      · simp [hx]
    · rw [if_neg hc] at ih ⊢
      show pySplitChar sep (x :: (xs ++ [c])) =
        (pySplitChar sep (x :: xs)).dropLast ++
          [(pySplitChar sep (x :: xs)).getLastD [] ++ [c]]
      unfold pySplitChar
      rw [ih, hS]
      cases S with
      | nil =>
        by_cases hx : x = sep <;>
          simp [hx, List.dropLast, List.getLastD_cons, List.getLastD_nil]
      | cons s1 S2 =>
        by_cases hx : x = sep <;>
          simp [hx, List.dropLast, List.getLastD_cons, List.getLastD_nil]

/-- The last part of a split is the text after the last separator. -/
theorem pySplitChar_getLastD (sep : Char) (l : List Char) :
    (pySplitChar sep l).getLastD [] = (l.reverse.takeWhile (fun c => c ≠ sep)).reverse := by
  induction l using List.reverseRecOn with
  | nil => rfl
  | append_singleton xs c ih =>
    rw [pySplitChar_append_last]
    by_cases hc : c = sep
    · rw [if_pos hc]
      simp [List.getLastD_concat, hc]
    · rw [if_neg hc, List.getLastD_concat, ih, List.reverse_append]
      simp only [List.reverse_cons, List.reverse_nil, List.nil_append, List.singleton_append]
      rw [List.takeWhile_cons, if_pos (by simp [hc]), List.reverse_cons]

theorem headI_map_stringMk (l : List (List Char)) :
    (l.map String.mk).headI = String.mk l.headI := by
  cases l <;> rfl

theorem getLastD_map_stringMk (l : List (List Char)) :
    (l.map String.mk).getLastD "" = String.mk (l.getLastD []) :=
  List.getLastD_map String.mk l []

/-- The dbus builder always produces a remote-call action. -/
theorem build_dbus_action_ne_exec (s b : String) :
    ActionParser.build_dbus_action s ≠ Action.execCmd b := by
  simp [ActionParser.build_dbus_action]

/-- C7 counterexample: an action string with the exec prefix whose body
contains a further colon does not become a shell-exec action — the
two-name unpacking of split raises, and the whole string (prefix
included) falls through to the remote-call default. -/
theorem c7_counterexample :
    ActionParser.parse "exec:echo a:b" =
      Action.dbusCall "exec:echo a:b" "/" "exec:echo a:b" := by decide

/-- C7 amended: the type prefix is honored only when the trimmed action
string splits on colons into exactly two parts whose first part
upper-cases to a known type name — then an EXEC prefix yields the
shell-exec action on the prefix-stripped remainder and a DBUS prefix the
remote-call action on the prefix-stripped remainder; in every other case
— no colon, more than one colon, or an unrecognized prefix — the action
defaults to remote-call applied to the whole trimmed string with nothing
stripped. -/
theorem c7_amended_prefix_selection (raw : String) :
    ((∃ body, ActionParser.parse raw = Action.execCmd body) ↔
      ((pySplit (pyStrip raw) ACTION_TYPE_SEP).length = 2 ∧
        pyUpper (pySplit (pyStrip raw) ACTION_TYPE_SEP).headI = "EXEC")) ∧
    ((pySplit (pyStrip raw) ACTION_TYPE_SEP).length = 2 →
      pyUpper (pySplit (pyStrip raw) ACTION_TYPE_SEP).headI = "EXEC" →
      ActionParser.parse raw =
        Action.execCmd
          (String.mk ((pyStrip raw).data.drop
            ((pySplit (pyStrip raw) ACTION_TYPE_SEP).headI.data.length + 1)))) ∧
    ((pySplit (pyStrip raw) ACTION_TYPE_SEP).length = 2 →
      pyUpper (pySplit (pyStrip raw) ACTION_TYPE_SEP).headI = "DBUS" →
      ActionParser.parse raw =
        ActionParser.build_dbus_action
          (String.mk ((pyStrip raw).data.drop
            ((pySplit (pyStrip raw) ACTION_TYPE_SEP).headI.data.length + 1)))) ∧
    (((pySplit (pyStrip raw) ACTION_TYPE_SEP).length = 2 →
        pyUpper (pySplit (pyStrip raw) ACTION_TYPE_SEP).headI ≠ "EXEC" ∧
        pyUpper (pySplit (pyStrip raw) ACTION_TYPE_SEP).headI ≠ "DBUS") →
      ActionParser.parse raw = ActionParser.build_dbus_action (pyStrip raw)) := by
  rcases hps : pySplit (pyStrip raw) ACTION_TYPE_SEP with _ | ⟨a, _ | ⟨b, tl⟩⟩
  · have hparse : ActionParser.parse raw = ActionParser.build_dbus_action (pyStrip raw) := by
      simp [ActionParser.parse, hps]
    refine ⟨?_, ?_, ?_, ?_⟩
    · rw [hparse]
      constructor
      · rintro ⟨body, hb⟩
        exact absurd hb (build_dbus_action_ne_exec _ _)
      · rintro ⟨hlen, _⟩
        exact absurd hlen (by decide)
    · intro hlen
      exact absurd hlen (by decide)
    · intro hlen
      exact absurd hlen (by decide)
    · intro _
      exact hparse
  · have hparse : ActionParser.parse raw = ActionParser.build_dbus_action (pyStrip raw) := by
      simp [ActionParser.parse, hps]
    refine ⟨?_, ?_, ?_, ?_⟩
    · rw [hparse]
      constructor
      · rintro ⟨body, hb⟩
        exact absurd hb (build_dbus_action_ne_exec _ _)
      · rintro ⟨hlen, _⟩
        exact absurd hlen (by simp)
    · intro hlen
      exact absurd hlen (by simp)
    · intro hlen
      exact absurd hlen (by simp)
    · intro _
      exact hparse
  · cases tl with
    | cons c tl2 =>
      have hparse : ActionParser.parse raw = ActionParser.build_dbus_action (pyStrip raw) := by
        simp [ActionParser.parse, hps]
      refine ⟨?_, ?_, ?_, ?_⟩
      · rw [hparse]
        constructor
        · rintro ⟨body, hb⟩
          exact absurd hb (build_dbus_action_ne_exec _ _)
        · rintro ⟨hlen, _⟩
          exact absurd hlen (by simp only [List.length_cons]; omega)
      · intro hlen
        exact absurd hlen (by simp only [List.length_cons]; omega)
      · intro hlen
        exact absurd hlen (by simp only [List.length_cons]; omega)
      · intro _
        exact hparse
    | nil =>
      by_cases hD : pyUpper a = "DBUS"
      · have hparse : ActionParser.parse raw =
            ActionParser.build_dbus_action
              (String.mk ((pyStrip raw).data.drop (a.data.length + 1))) := by
          simp [ActionParser.parse, hps, actionTypeFromName, hD]
        refine ⟨?_, ?_, ?_, ?_⟩
        · rw [hparse]
          constructor
          · rintro ⟨body, hb⟩
            exact absurd hb (build_dbus_action_ne_exec _ _)
          · rintro ⟨_, hE⟩
            have hE2 : pyUpper a = "EXEC" := hE
            rw [hD] at hE2
            exact absurd hE2 (by decide)
        · intro _ hE2
          have h3 : ("DBUS" : String) = "EXEC" :=
            hD.symm.trans (show pyUpper a = "EXEC" from hE2)
          exact absurd h3 (by decide)
        · intro _ _
          rw [hparse]
          rfl
        · intro hyp
          have h2 : pyUpper a ≠ "DBUS" := (hyp rfl).2
          exact absurd hD h2
      · by_cases hE : pyUpper a = "EXEC"
        · have hparse : ActionParser.parse raw =
              Action.execCmd (String.mk ((pyStrip raw).data.drop (a.data.length + 1))) := by
            simp [ActionParser.parse, hps, actionTypeFromName, hD, hE,
              ActionParser.build_exec_action]
          refine ⟨?_, ?_, ?_, ?_⟩
          · rw [hparse]
            constructor
            · intro _
              exact ⟨rfl, hE⟩
            · intro _
              exact ⟨_, rfl⟩
          · intro _ _
            rw [hparse]
            rfl
          · intro _ hD2
            have hD3 : pyUpper a = "DBUS" := hD2
            exact absurd hD3 hD
          · intro hyp
            have h1 : pyUpper a ≠ "EXEC" := (hyp rfl).1
            exact absurd hE h1
        · have hparse : ActionParser.parse raw =
              ActionParser.build_dbus_action (pyStrip raw) := by
            simp [ActionParser.parse, hps, actionTypeFromName, hD, hE]
          refine ⟨?_, ?_, ?_, ?_⟩
          · rw [hparse]
            constructor
            · rintro ⟨body, hb⟩
              exact absurd hb (build_dbus_action_ne_exec _ _)
            · rintro ⟨_, hE2⟩
              exact absurd (show pyUpper a = "EXEC" from hE2) hE
          · intro _ hE2
            exact absurd (show pyUpper a = "EXEC" from hE2) hE
          · intro _ hD2
            exact absurd (show pyUpper a = "DBUS" from hD2) hD
          · intro _
            exact hparse

/-- C7 amended witness: a recognized exec prefix with a colon-free body is
honored as shell-exec with the prefix stripped, a recognized dbus prefix
as remote-call with the prefix stripped, and an unrecognized single-colon
prefix falls through to the remote-call default on the whole string. -/
theorem c7_amended_witness :
    ActionParser.parse "exec:ls" = Action.execCmd "ls" ∧
    ActionParser.parse "dbus:a/b" = ActionParser.build_dbus_action "a/b" ∧
    ActionParser.parse "xyz:stuff" = ActionParser.build_dbus_action (pyStrip "xyz:stuff") := by
  refine ⟨?_, ?_, (c7_amended_prefix_selection "xyz:stuff").2.2.2 (by decide)⟩
  · have h := (c7_amended_prefix_selection "exec:ls").2.1 (by decide) (by decide)
    rw [h]
    decide
  · have h := (c7_amended_prefix_selection "dbus:a/b").2.2.1 (by decide) (by decide)
    rw [h]
    decide

/-- C8: for every remote-call body the parsed namespace is the text before
the first slash and the parsed method the text after the last slash; the
body org.example.Audio/mute parses to namespace org.example.Audio, path /,
method mute; the compiled mute binding dispatches exactly one remote call
with that triple on a KEY_F20 press and none on its release. -/
theorem c8_dbus_grammar_and_dispatch :
    (∀ body : String, ∃ path,
        ActionParser.build_dbus_action body =
          Action.dbusCall (String.mk (body.data.takeWhile (fun c => c ≠ '/'))) path
            (String.mk ((body.data.reverse.takeWhile (fun c => c ≠ '/')).reverse))) ∧
    ActionParser.parse "dbus:org.example.Audio/mute" =
      Action.dbusCall "org.example.Audio" "/" "mute" ∧
    ConfigManager.generate_bindings cfgMute = Except.ok [muteBinding] ∧
    (EventManager.run_events env0 [] [muteBinding] [pressEv 190, relEv 190]).2.map
        EventManager.RunOnceResult.calls =
      [[("org.example.Audio", "/", "mute")], []] := by
  refine ⟨?_, by decide, by decide, by decide⟩
  intro body
  have hns : (pySplit body '/').headI =
      String.mk (body.data.takeWhile (fun c => c ≠ '/')) := by
    simp only [pySplit]
    rw [headI_map_stringMk, pySplitChar_headI]
  have hm : (pySplit body '/').getLastD "" =
      String.mk ((body.data.reverse.takeWhile (fun c => c ≠ '/')).reverse) := by
    simp only [pySplit]
    rw [getLastD_map_stringMk, pySplitChar_getLastD]
  simp only [ActionParser.build_dbus_action]
  rw [hns, hm]
  exact ⟨_, rfl⟩

/-- C9: a reload, successful or failed, never touches the held mapping —
after any successfully processed input event the daemon's held dict is
exactly what run_once produced from the previous held dict and the event;
concretely, pressing KEY_A, reloading to a config defining the combo
(KEY_A, KEY_B), then pressing KEY_B dispatches the combo action. -/
theorem c9_held_state_survives_reload :
    (∀ (env : ActionEnv) (f : ConfigManager.FileState) (st : EventManager.DaemonState)
        (ev : InputEvent) (st2 : EventManager.DaemonState) (r : EventManager.RunOnceResult),
        EventManager.loop_iter env f st (EventManager.LoopEvent.input ev) = Except.ok (st2, r) →
          st2.held = (EventManager.run_once env st.held st.bindings ev).held) ∧
    (EventManager.run_loop env0 st0
        [(EventManager.LoopEvent.input (pressEv 30), fEmpty0),
         (EventManager.LoopEvent.input otherEv, fCombo1),
         (EventManager.LoopEvent.input (pressEv 48), fCombo1)] =
      Except.ok (c9Final, c9Records)) ∧
    c9Records.map EventManager.RunOnceResult.dispatched = [[], [], [comboAction]] ∧
    c9Final.held = [(30, true), (48, true)] := by
  refine ⟨?_, by decide, by decide, by decide⟩
  intro env f st ev st2 r hstep
  simp only [EventManager.loop_iter] at hstep
  split at hstep
  · split at hstep
    · split at hstep
      · simp only [Except.ok.injEq, Prod.mk.injEq] at hstep
        obtain ⟨h1, h2⟩ := hstep
        subst h1
        rfl
      · exact Except.noConfusion hstep
    · simp only [Except.ok.injEq, Prod.mk.injEq] at hstep
      obtain ⟨h1, h2⟩ := hstep
      subst h1
      rfl
  · simp only [Except.ok.injEq, Prod.mk.injEq] at hstep
    obtain ⟨h1, h2⟩ := hstep
    subst h1
    rfl

/-- C9 witness: a failed reload iteration whose resulting held dict is the
run_once result of the triggering press. -/
theorem c9_witness :
    EventManager.loop_iter env0 fBadParse stPrev (EventManager.LoopEvent.input (pressEv 30)) =
      Except.ok (c5st2, c5r) ∧
    c5st2.held = (EventManager.run_once env0 stPrev.held stPrev.bindings (pressEv 30)).held :=
  ⟨by decide,
    c9_held_state_survives_reload.1 env0 fBadParse stPrev (pressEv 30) c5st2 c5r (by decide)⟩

/-- C10: when a load fails (the file parsed with an error after its mtime
was read), the config mapping is unchanged but the recorded mtime has
advanced to the file's, so need_reload is false for every file state whose
mtime has not increased beyond it — the failed reload is never retried for
the same file version. -/
theorem c10_failed_reload_not_retried (st : ConfigManager.CMState)
    (f : ConfigManager.FileState) (st2 : ConfigManager.CMState)
    (hload : ConfigManager.load st f = (st2, false)) :
    st2.config = st.config ∧ st2.configMtime = f.mtime ∧
      (∃ m, f.parsed = Except.error m) ∧
      (∀ f2 : ConfigManager.FileState, f2.mtime ≤ f.mtime →
        ConfigManager.need_reload st2 f2 = false) := by
  cases hp : f.parsed with
  | ok cfg =>
    have hl : ConfigManager.load st f = ({ config := cfg, configMtime := f.mtime }, true) := by
      unfold ConfigManager.load
      rw [hp]
    rw [hl] at hload
    injection hload with h1 h2
    exact Bool.noConfusion h2
  | error m =>
    have hl : ConfigManager.load st f =
        ({ config := st.config, configMtime := f.mtime }, false) := by
      unfold ConfigManager.load
      rw [hp]
    rw [hl] at hload
    injection hload with h1 h2
    subst h1
    refine ⟨rfl, rfl, ⟨m, rfl⟩, ?_⟩
    intro f2 hle
    unfold ConfigManager.need_reload
    simp only [decide_eq_false_iff_not]
    omega

/-- C10 witness: the concrete failed reload is not retried at the same
mtime. -/
theorem c10_witness :
    ConfigManager.load c10st fBadParse = (c10st2, false) ∧
    c10st2.config = c10st.config ∧
    ConfigManager.need_reload c10st2 fBadParse = false :=
  ⟨by decide,
    (c10_failed_reload_not_retried c10st fBadParse c10st2 (by decide)).1,
    (c10_failed_reload_not_retried c10st fBadParse c10st2 (by decide)).2.2.2 fBadParse
      (by decide)⟩

end GlobalHotkeys
